import Mathlib

/-!
Verification of the prediction and scoring engine of a student
academic-tracking and career-guidance application.

Two components are embedded here, following the Python source:

* the RIASEC Aggregator (`CareerAssessmentService.calculate_riasec_scores`
  in `app/services/career_service.py`), which converts per-question
  evaluations into six normalized category scores, and the top-3 profile
  ranking derived in `generate_final_recommendation`;
* the Trend Predictor (`PredictionService` in
  `app/services/prediction_service.py`), which fits a per-subject
  ordinary-least-squares line over (grade_level, score) pairs,
  extrapolates to grade 12, and attaches a dispersion-based confidence
  band, plus the strength/weakness analysis utility.

Machine floats are modelled by exact rationals (`ℚ`); the square root
used for the sample standard deviation lives in `ℝ`.  Fallible code
(pandas `.iloc[0]` on an empty selection raises `IndexError`, a dict
subscript with a missing key raises `KeyError`) is modelled with
`Except String`.
-/

namespace CareerApp

/-- The six RIASEC categories, in the fixed enumeration order
`R, I, A, S, E, C` in which `calculate_riasec_scores` initializes its
score dictionary. -/
inductive Riasec where
  | R | I | A | S | E | C
deriving DecidableEq, Repr

/-- The dictionary keys in insertion order: the Python dict
`riasec_scores` is created with keys `'R','I','A','S','E','C'`. -/
def Riasec.all : List Riasec := [.R, .I, .A, .S, .E, .C]

/-- Position of a category in the enumeration order (dict insertion
order). -/
def Riasec.idx : Riasec → Nat
  | .R => 0 | .I => 1 | .A => 2 | .S => 3 | .E => 4 | .C => 5

/-- The one-letter string code of a category. -/
def Riasec.codeStr : Riasec → String
  | .R => "R" | .I => "I" | .A => "A" | .S => "S" | .E => "E" | .C => "C"

/-- Interpret the `riasec_code` column of the framework table.  The
Python dict subscript `riasec_scores[riasec_code]` succeeds exactly for
the six key strings and raises `KeyError` otherwise. -/
def Riasec.ofCode : String → Option Riasec
  | "R" => some .R | "I" => some .I | "A" => some .A
  | "S" => some .S | "E" => some .E | "C" => some .C
  | _ => none

/-- A row of the framework table (`framework_df`): only the columns that
`calculate_riasec_scores` reads. -/
structure FrameworkRow where
  id : Int
  riasec_code : String
  weight : ℚ
deriving DecidableEq, Repr

/-- An assessment response dict, restricted to the keys read by
`calculate_riasec_scores`; `confidence_score` is optional, matching
`response.get('confidence_score', 0.8)`. -/
structure AssessmentResponse where
  question_id : Int
  answer : String
  confidence_score : Option ℚ
deriving DecidableEq, Repr

/-- The accumulators of the scoring loop: the `riasec_scores` and
`riasec_weights` dictionaries, both initialized to `0.0` on all six
keys. -/
structure ScoreState where
  scores : Riasec → ℚ
  weights : Riasec → ℚ

/-- The initial state: all scores and weights `0.0`. -/
def initState : ScoreState := ⟨fun _ => 0, fun _ => 0⟩

/-- Base score from the answer type: `Yes → 1.0`, `Partial → 0.5`,
anything else (`No` or `Error`) `→ 0.0`. -/
def baseScore (answer : String) : ℚ :=
  if answer = "Yes" then 1 else if answer = "Partial" then 1/2 else 0

/-- `confidence = max(0.0, min(1.0, response.get('confidence_score', 0.8)))`:
the defensive clamp into [0,1] with default `0.8` when absent. -/
def clampConfidence (c : Option ℚ) : ℚ :=
  max 0 (min 1 (c.getD (4/5)))

/-- `final_score = base_score * confidence if base_score > 0 else 0.0`. -/
def finalScore (answer : String) (c : Option ℚ) : ℚ :=
  if baseScore answer > 0 then baseScore answer * clampConfidence c else 0

/-- The two dictionary updates of one loop iteration:
`riasec_scores[code] += final_score * weight` and
`riasec_weights[code] += weight`. -/
def applyCredit (st : ScoreState) (code : Riasec) (credit w : ℚ) : ScoreState :=
  { scores := fun c => if c = code then st.scores c + credit * w else st.scores c,
    weights := fun c => if c = code then st.weights c + w else st.weights c }

/-- `framework_df[framework_df['id'] == qid].iloc[0]`: the first framework
row whose `id` matches, or `none` when the selection is empty (in which
case `.iloc[0]` raises `IndexError`). -/
def lookupQuestion (framework_df : List FrameworkRow) (qid : Int) : Option FrameworkRow :=
  framework_df.find? (fun row => row.id = qid)

/-- One iteration of the scoring loop of `calculate_riasec_scores`.  An
empty id-selection raises `IndexError`; a `riasec_code` outside the six
dict keys raises `KeyError`. -/
def processResponse (framework_df : List FrameworkRow) (st : ScoreState)
    (r : AssessmentResponse) : Except String ScoreState :=
  match lookupQuestion framework_df r.question_id with
  | none => .error "IndexError: single positional indexer is out-of-bounds"
  | some q =>
    match Riasec.ofCode q.riasec_code with
    | none => .error "KeyError"
    | some code =>
      .ok (applyCredit st code (finalScore r.answer r.confidence_score) q.weight)

/-- The scoring loop over the responses: the first raised error aborts
the remaining iterations, as a Python exception leaves the `for` loop. -/
def runLoop (framework_df : List FrameworkRow) :
    ScoreState → List AssessmentResponse → Except String ScoreState
  | st, [] => .ok st
  | st, r :: rs =>
    match processResponse framework_df st r with
    | .error e => .error e
    | .ok st1 => runLoop framework_df st1 rs

/-- The whole accumulation loop, starting from the zeroed dictionaries. -/
def runAggregation (assessment_responses : List AssessmentResponse)
    (framework_df : List FrameworkRow) : Except String ScoreState :=
  runLoop framework_df initState assessment_responses

/-- The normalization pass: `score / weight * 100` when the accumulated
weight is positive, otherwise the accumulated score is left as is
(initialized to `0.0`). -/
def normalizeScores (st : ScoreState) : Riasec → ℚ :=
  fun c => if st.weights c > 0 then st.scores c / st.weights c * 100 else st.scores c

/-- `CareerAssessmentService.calculate_riasec_scores`: accumulate then
normalize, producing the six-category score mapping. -/
def calculate_riasec_scores (assessment_responses : List AssessmentResponse)
    (framework_df : List FrameworkRow) : Except String (Riasec → ℚ) :=
  (runAggregation assessment_responses framework_df).map normalizeScores

/-- Render a score mapping on the six keys in dict order, for stating
concrete results. -/
def scoresAsList (f : Riasec → ℚ) : List ℚ := Riasec.all.map f

/-! ### Profile ranking

`generate_final_recommendation` computes
`sorted(riasec_scores.items(), key=lambda x: x[1], reverse=True)[:3]`
and joins the codes.  Python's `sorted` is a stable sort, and with
`reverse=True` elements with equal keys keep their original (dict
insertion) order.  We embed the stable descending sort as a
left-to-right insertion sort in which a new element passes over every
element with a strictly smaller key and stops behind equal keys. -/

/-- Stable descending insertion of `x` into a descending-sorted list:
`x` goes in front of the first element with a strictly smaller key, so
it lands behind every earlier element with an equal key. -/
def insertDescBy (key : α → ℚ) (x : α) : List α → List α
  | [] => [x]
  | y :: ys => if key y < key x then x :: y :: ys else y :: insertDescBy key x ys

/-- Stable descending sort by a rational key, processing the input left
to right: the embedding of Python's stable `sorted(..., reverse=True)`. -/
def sortDescBy (key : α → ℚ) (l : List α) : List α :=
  l.foldl (fun acc x => insertDescBy key x acc) []

/-- `riasec_scores.items()` in dict insertion order `R,I,A,S,E,C`. -/
def riasecItems (scores : Riasec → ℚ) : List (Riasec × ℚ) :=
  Riasec.all.map (fun c => (c, scores c))

/-- The full descending ranking of the six categories. -/
def rankCategories (scores : Riasec → ℚ) : List (Riasec × ℚ) :=
  sortDescBy Prod.snd (riasecItems scores)

/-- `top_codes = sorted(...)[:3]; riasec_profile = "".join(code for code, _ in top_codes)`. -/
def riasecProfile (scores : Riasec → ℚ) : String :=
  String.join (((rankCategories scores).take 3).map (fun p => p.1.codeStr))

/-! ### The service object

`CareerAssessmentService.__init__` stores only an API client handle; the
scoring method reads none of it and assigns nothing, which we make
explicit by threading the service value through the call. -/

/-- The state of a `CareerAssessmentService` instance (`self.client`),
modelled opaquely as the construction-time key. -/
structure CareerAssessmentService where
  client : String
deriving DecidableEq, Repr

/-- The method call `svc.calculate_riasec_scores(responses, framework_df)`
as a state transformer on the service instance: the body only reads its
two arguments, so the result is `calculate_riasec_scores` of the
arguments and the instance is returned unchanged. -/
def CareerAssessmentService.calcRiasecScores (svc : CareerAssessmentService)
    (assessment_responses : List AssessmentResponse)
    (framework_df : List FrameworkRow) :
    Except String (Riasec → ℚ) × CareerAssessmentService :=
  (calculate_riasec_scores assessment_responses framework_df, svc)

/-! ## Trend Predictor (`app/services/prediction_service.py`) -/

/-- One row of the student's grade table, restricted to the columns the
predictor reads. -/
structure GradeRow where
  subject : String
  grade_level : ℚ
  score : ℚ
deriving DecidableEq, Repr

/-- `grades_df[grades_df['subject'] == subject]`: the rows of one
subject, in table order. -/
def subjectRows (grades_df : List GradeRow) (subject : String) : List GradeRow :=
  grades_df.filter (fun r => r.subject = subject)

/-- Distinct values of a list in order of first appearance (pandas
`unique`). -/
def distinctVals [DecidableEq α] (l : List α) : List α :=
  l.foldl (fun acc x => if x ∈ acc then acc else acc ++ [x]) []

/-- `grades_df['subject'].unique()`: subjects in order of first
appearance, without duplicates. -/
def uniqueSubjects (grades_df : List GradeRow) : List String :=
  distinctVals (grades_df.map (fun r => r.subject))

/-- Arithmetic mean (`np.mean`); `0` on the empty list only through the
ambient `x / 0 = 0` convention, never reached where the code guards. -/
def listMean (l : List ℚ) : ℚ := l.sum / l.length

/-- A fitted `LinearRegression` model: one coefficient and the
intercept. -/
structure LinearModel where
  coef : ℚ
  intercept : ℚ
deriving DecidableEq, Repr

/-- `model.predict([[x]])[0] = coef * x + intercept`. -/
def LinearModel.predictAt (m : LinearModel) (x : ℚ) : ℚ :=
  m.coef * x + m.intercept

/-- Ordinary least squares for one explanatory variable, the exact
solution computed by `LinearRegression.fit` on a single column:
`coef = Sxy / Sxx`, `intercept = ȳ − coef·x̄`.  When every `x` is
identical, `Sxy = Sxx = 0` and the division convention gives `coef = 0`,
`intercept = ȳ` — the minimum-norm least-squares solution the library
returns in that singular case. -/
def fitOLS (xs ys : List ℚ) : LinearModel :=
  let xbar := listMean xs
  let ybar := listMean ys
  let sxx := (xs.map (fun x => (x - xbar) ^ 2)).sum
  let sxy := ((xs.zip ys).map (fun p => (p.1 - xbar) * (p.2 - ybar))).sum
  let slope := sxy / sxx
  ⟨slope, ybar - slope * xbar⟩

/-- `r2_score(y, ŷ) = 1 − SSres/SStot` (with both zero, the convention
`0/0 = 0` yields `1`, as the library reports for a perfect constant
fit). -/
def r2Score (ys preds : List ℚ) : ℚ :=
  let ybar := listMean ys
  let sstot := (ys.map (fun y => (y - ybar) ^ 2)).sum
  let ssres := ((ys.zip preds).map (fun p => (p.1 - p.2) ^ 2)).sum
  1 - ssres / sstot

/-- `np.mean(np.abs(y - predictions))`: mean absolute error. -/
def maeScore (ys preds : List ℚ) : ℚ :=
  listMean (((ys.zip preds)).map (fun p => |p.1 - p.2|))

/-- The fit diagnostics stored in `self.model_metrics[subject]`. -/
structure ModelMetrics where
  r2_score : ℚ
  mae : ℚ
  data_points : Nat
deriving DecidableEq, Repr

/-- `PredictionService.train_model_for_subject`: filter the subject's
rows; with fewer than 2 rows return `None` (no model, only a warning
log); otherwise fit the line and record the metrics. -/
def train_model_for_subject (grades_df : List GradeRow) (subject : String) :
    Option (LinearModel × ModelMetrics) :=
  let subject_df := subjectRows grades_df subject
  if subject_df.length < 2 then none
  else
    let xs := subject_df.map (fun r => r.grade_level)
    let ys := subject_df.map (fun r => r.score)
    let model := fitOLS xs ys
    let preds := xs.map (fun x => model.predictAt x)
    some (model, ⟨r2Score ys preds, maeScore ys preds, subject_df.length⟩)

/-- `np.clip(x, lo, hi)`. -/
def npClip (x lo hi : ℚ) : ℚ := min hi (max lo x)

/-- Sample variance with `ddof = 1`, as under pandas `Series.std()`:
`Σ (y − ȳ)² / (n − 1)`. -/
def sampleVariance (l : List ℚ) : ℚ :=
  ((l.map (fun y => (y - listMean l) ^ 2)).sum) / ((l.length : ℚ) - 1)

/-- `subject_df['score'].std()`: the sample standard deviation, the one
place the embedding needs a real square root. -/
noncomputable def stdDev (l : List ℚ) : ℝ :=
  Real.sqrt (sampleVariance l)

/-- One emitted prediction dict. -/
structure Prediction where
  student_id : String
  subject : String
  predicted_score : ℚ
  confidence_lower : ℝ
  confidence_upper : ℝ
  model_version : String
  r2_score : ℚ
  mae : ℚ

/-- The body of the per-subject loop of `predict_grade_12`: train; on
`None` skip the subject (`continue`); otherwise evaluate the line at
grade 12, clip into [0,10], and attach the dispersion band
`[max(0, p − σ), min(10, p + σ)]`. -/
noncomputable def buildPrediction (student_id : String)
    (grades_df : List GradeRow) (subject : String) : Option Prediction :=
  match train_model_for_subject grades_df subject with
  | none => none
  | some (model, metrics) =>
    let predicted_score := npClip (model.predictAt 12) 0 10
    let scores := (subjectRows grades_df subject).map (fun r => r.score)
    let std_dev := stdDev scores
    some { student_id := student_id,
           subject := subject,
           predicted_score := predicted_score,
           confidence_lower := max 0 ((predicted_score : ℝ) - std_dev),
           confidence_upper := min 10 ((predicted_score : ℝ) + std_dev),
           model_version := "linear_regression_v1",
           r2_score := metrics.r2_score,
           mae := metrics.mae }

/-- `PredictionService.predict_grade_12`: one prediction per distinct
subject that trains successfully; sparse subjects are silently
omitted. -/
noncomputable def predict_grade_12 (student_id : String)
    (grades_df : List GradeRow) : List Prediction :=
  (uniqueSubjects grades_df).filterMap (buildPrediction student_id grades_df)

/-! ### Strength/weakness analysis -/

/-- A prediction dict as consumed by `analyze_student_strengths`:
`r2_score` is read through `p.get('r2_score', 1.0)`, so it is optional
here. -/
structure PredInput where
  subject : String
  predicted_score : ℚ
  r2_score : Option ℚ
deriving DecidableEq, Repr

/-- The analysis dict (the `all_predictions` echo of the sorted input,
absent from the empty-input branch, is not modelled). -/
structure StrengthAnalysis where
  strong_subjects : List String
  weak_subjects : List String
  average_predicted_score : ℚ
  top_subject : Option String
  improvement_areas : List String
deriving DecidableEq, Repr

/-- `PredictionService.analyze_student_strengths(predictions, threshold=8.0)`.
The `strong` cutoff is the `threshold` parameter (default `8.0`); the
`weak` cutoff `7.0` and the `R²` cutoff `0.7` are hard-coded. -/
def analyze_student_strengths (predictions : List PredInput)
    (threshold : ℚ := 8) : StrengthAnalysis :=
  if predictions.isEmpty then
    { strong_subjects := [], weak_subjects := [],
      average_predicted_score := 0, top_subject := none,
      improvement_areas := [] }
  else
    let sorted_preds := sortDescBy (fun p => p.predicted_score) predictions
    { strong_subjects :=
        (sorted_preds.filter (fun p => threshold ≤ p.predicted_score)).map
          (fun p => p.subject),
      weak_subjects :=
        (sorted_preds.filter (fun p => p.predicted_score < 7)).map
          (fun p => p.subject),
      average_predicted_score :=
        listMean (predictions.map (fun p => p.predicted_score)),
      top_subject := sorted_preds.head?.map (fun p => p.subject),
      improvement_areas :=
        (predictions.filter
            (fun p => p.r2_score.getD 1 < 7/10 ∨ p.predicted_score < 7)).map
          (fun p => p.subject) }

/-! ## Auxiliary definitions for the statements -/

/-- The strict ordering realized by the stable descending sort: earlier
means strictly larger key, or equal key and strictly smaller original
position. -/
def keyLt (key : α → ℚ) (pos : α → Nat) (p q : α) : Prop :=
  key q < key p ∨ (key p = key q ∧ pos p < pos q)

instance (key : α → ℚ) (pos : α → Nat) (p q : α) : Decidable (keyLt key pos p q) :=
  inferInstanceAs (Decidable (key q < key p ∨ (key p = key q ∧ pos p < pos q)))

/-- The non-strict companion of `keyLt`, used for the uniqueness
argument. -/
def keyLe (key : α → ℚ) (pos : α → Nat) (p q : α) : Prop :=
  keyLt key pos p q ∨ p = q

/-- The ranking order on score items: score descending, ties broken by
the dict enumeration order `R,I,A,S,E,C`. -/
def profileOrder (p q : Riasec × ℚ) : Prop :=
  keyLt Prod.snd (fun x => x.1.idx) p q

instance (p q : Riasec × ℚ) : Decidable (profileOrder p q) :=
  inferInstanceAs (Decidable (q.2 < p.2 ∨ (p.2 = q.2 ∧ p.1.idx < q.1.idx)))

/-- The reflexive closure of `profileOrder`, an antisymmetric total
order used to state that the ranking is unique. -/
def profileOrderRefl (p q : Riasec × ℚ) : Prop :=
  profileOrder p q ∨ p = q

/-- The loop invariant of the aggregation: accumulated weights are
nonnegative, and a category with zero accumulated weight has zero
accumulated score (given nonnegative framework weights). -/
def WeightInv (st : ScoreState) : Prop :=
  ∀ c, 0 ≤ st.weights c ∧ (st.weights c = 0 → st.scores c = 0)

/-! ## Concrete inputs used in closed statements -/

/-- A one-question framework: question 1 is an `R` question of weight
`1.0`. -/
def fwOne : List FrameworkRow := [⟨1, "R", 1⟩]

/-- A response referencing question id 999, absent from `fwOne`. -/
def respUnresolved : List AssessmentResponse := [⟨999, "Yes", some 1⟩]

/-- The single response `Yes` with confidence `1.0` to question 1. -/
def respYesR : List AssessmentResponse := [⟨1, "Yes", some 1⟩]

/-- Two grade points for one subject: (9, 7.0) and (10, 8.0). -/
def dfTwoPoints : List GradeRow := [⟨"Math", 9, 7⟩, ⟨"Math", 10, 8⟩]

/-- Two grade rows at the same grade level: one distinct grade_level
value, two rows. -/
def dfDupLevel : List GradeRow := [⟨"Math", 10, 7⟩, ⟨"Math", 10, 8⟩]

/-- A single grade row. -/
def dfOneRow : List GradeRow := [⟨"Math", 9, 7⟩]

/-- One prediction dict with predicted score `8.5` and perfect fit. -/
def predStrong : PredInput := ⟨"Math", 17/2, some 1⟩

/-- A fully tied score mapping: every category at `50`. -/
def allFifty : Riasec → ℚ := fun _ => 50

/-! ## Lemmas about the aggregation loop -/

theorem applyCredit_scores_self (st : ScoreState) (code : Riasec) (credit w : ℚ) :
    (applyCredit st code credit w).scores code = st.scores code + credit * w :=
  if_pos rfl

theorem applyCredit_weights_self (st : ScoreState) (code : Riasec) (credit w : ℚ) :
    (applyCredit st code credit w).weights code = st.weights code + w :=
  if_pos rfl

theorem applyCredit_scores_other (st : ScoreState) {c code : Riasec} (credit w : ℚ)
    (h : c ≠ code) : (applyCredit st code credit w).scores c = st.scores c :=
  if_neg h

theorem applyCredit_weights_other (st : ScoreState) {c code : Riasec} (credit w : ℚ)
    (h : c ≠ code) : (applyCredit st code credit w).weights c = st.weights c :=
  if_neg h

theorem processResponse_inv {fw : List FrameworkRow} {st st' : ScoreState}
    {r : AssessmentResponse} (hw : ∀ row ∈ fw, 0 ≤ row.weight)
    (h : processResponse fw st r = .ok st') (hst : WeightInv st) : WeightInv st' := by
  cases hq : lookupQuestion fw r.question_id with
  | none => simp [processResponse, hq] at h
  | some q =>
    cases hc : Riasec.ofCode q.riasec_code with
    | none => simp [processResponse, hq, hc] at h
    | some code =>
      simp only [processResponse, hq, hc, Except.ok.injEq] at h
      have hqw : 0 ≤ q.weight := hw q (List.mem_of_find?_eq_some hq)
      subst h
      intro c
      by_cases hcc : c = code
      · subst hcc
        refine ⟨?_, ?_⟩
        · rw [applyCredit_weights_self]
          have := (hst c).1
          linarith
        · intro h0
          rw [applyCredit_weights_self] at h0
          rw [applyCredit_scores_self]
          have h1 : st.weights c = 0 := by linarith [(hst c).1]
          have h2 : q.weight = 0 := by linarith [(hst c).1]
          rw [(hst c).2 h1, h2, mul_zero, add_zero]
      · rw [applyCredit_weights_other st _ _ hcc, applyCredit_scores_other st _ _ hcc]
        exact hst c

theorem runLoop_inv {fw : List FrameworkRow} (hw : ∀ row ∈ fw, 0 ≤ row.weight) :
    ∀ (rs : List AssessmentResponse) (st st' : ScoreState),
      WeightInv st → runLoop fw st rs = .ok st' → WeightInv st' := by
  intro rs
  induction rs with
  | nil =>
    intro st st' hst h
    cases h
    exact hst
  | cons r rs ih =>
    intro st st' hst h
    unfold runLoop at h
    cases hstep : processResponse fw st r with
    | error e => rw [hstep] at h; exact absurd h (by simp)
    | ok st1 =>
      rw [hstep] at h
      exact ih st1 st' (processResponse_inv hw hstep hst) h

/-! ## Claims about the RIASEC Aggregator -/

/-- **C1** (code bug): the spec says a response whose `question_id`
resolves to no framework row is skipped, but
`calculate_riasec_scores` evaluates `.iloc[0]` on the empty selection,
which raises `IndexError` and aborts the whole batch.  (The sibling
implementations in `debug_riasec_scores.py` and `chatbot_service.py`
both guard this lookup with an `.empty` check and skip, matching the
spec.)  At the failing input, the call returns the error instead of a
score mapping. -/
theorem claim_C1_unresolved_reference_raises :
    lookupQuestion fwOne 999 = none
    ∧ calculate_riasec_scores respUnresolved fwOne
        = .error "IndexError: single positional indexer is out-of-bounds" :=
  ⟨rfl, rfl⟩

/-- **C3** (confirmed): the credit a response earns is
`base_credit × confidence`, where the base credit is `1.0` for `Yes`,
`0.5` for `Partial` and `0.0` otherwise; the confidence is clamped into
`[0,1]`, defaults to `0.8` when absent, and a zero base credit yields a
zero contribution regardless of confidence.  The last conjunct ties the
credit to the dictionary update performed for the response's
category. -/
theorem claim_C3_confidence_modulated_credit (ans : String) (c : Option ℚ)
    (st : ScoreState) (code : Riasec) (w : ℚ) :
    finalScore ans c = baseScore ans * clampConfidence c
    ∧ 0 ≤ clampConfidence c
    ∧ clampConfidence c ≤ 1
    ∧ clampConfidence none = 4/5
    ∧ baseScore "Yes" = 1
    ∧ baseScore "Partial" = 1/2
    ∧ (ans ≠ "Yes" → ans ≠ "Partial" → baseScore ans = 0)
    ∧ (baseScore ans = 0 → finalScore ans c = 0)
    ∧ (applyCredit st code (finalScore ans c) w).scores code
        = st.scores code + baseScore ans * clampConfidence c * w := by
  have hbase : baseScore ans = 0 ∨ 0 < baseScore ans := by
    unfold baseScore
    by_cases h1 : ans = "Yes"
    · right; rw [if_pos h1]; norm_num
    · by_cases h2 : ans = "Partial"
      · right; rw [if_neg h1, if_pos h2]; norm_num
      · left; rw [if_neg h1, if_neg h2]
  have hfin : finalScore ans c = baseScore ans * clampConfidence c := by
    unfold finalScore
    rcases hbase with h | h
    · rw [h, zero_mul, if_neg]; simp [h]
    · rw [if_pos h]
  refine ⟨hfin, le_max_left _ _, max_le (by norm_num) (min_le_left _ _), ?_, rfl, rfl, ?_, ?_, ?_⟩
  · show max 0 (min 1 ((4:ℚ)/5)) = 4/5
    rw [min_eq_right (by norm_num), max_eq_right (by norm_num)]
  · intro h1 h2; unfold baseScore; rw [if_neg h1, if_neg h2]
  · intro h0; rw [hfin, h0, zero_mul]
  · rw [applyCredit_scores_self, hfin]

/-- Witness for C3: a `No` answer with out-of-range confidence `2.0`
contributes zero credit, and the clamp stays within bound. -/
theorem claim_C3_witness :
    finalScore "No" (some 2) = 0 ∧ clampConfidence (some 2) ≤ 1 := by
  have h := claim_C3_confidence_modulated_credit "No" (some 2) initState Riasec.R 1
  have hb : baseScore "No" = 0 := h.2.2.2.2.2.2.1 (by decide) (by decide)
  exact ⟨h.2.2.2.2.2.2.2.1 hb, h.2.2.1⟩

/-- **C4** (confirmed): a single `R` question of weight `1.0` answered
`Yes` with confidence `1.0` scores `R = 100.0` with all other categories
at `0.0`; and in general, under the spec's data invariant of
nonnegative framework weights, any category whose accumulated weight is
zero is reported with score `0` (the normalization divides only when
the weight sum is positive). -/
theorem claim_C4_normalization_and_degenerate_category :
    (calculate_riasec_scores respYesR fwOne).map scoresAsList
        = .ok [100, 0, 0, 0, 0, 0]
    ∧ ∀ (rs : List AssessmentResponse) (fw : List FrameworkRow)
        (st : ScoreState) (c : Riasec),
        (∀ row ∈ fw, 0 ≤ row.weight) →
        runAggregation rs fw = .ok st →
        st.weights c = 0 →
        normalizeScores st c = 0 := by
  constructor
  · simp only [calculate_riasec_scores, runAggregation, runLoop, processResponse,
      lookupQuestion, respYesR, fwOne, Riasec.ofCode, applyCredit, initState,
      normalizeScores, scoresAsList, Riasec.all, finalScore, baseScore,
      clampConfidence, Except.map, List.find?]
    simp [normalizeScores]
  · intro rs fw st c hw hrun h0
    have hinv : WeightInv st :=
      runLoop_inv hw rs initState st (fun _ => ⟨le_refl 0, fun _ => rfl⟩) hrun
    unfold normalizeScores
    rw [h0, if_neg (by norm_num)]
    exact (hinv c).2 h0

/-- Witness for C4: the general degenerate-category statement applied to
the concrete one-question framework, where category `I` accumulates no
weight. -/
theorem claim_C4_witness :
    (∀ row ∈ fwOne, 0 ≤ row.weight)
    ∧ normalizeScores
        (applyCredit initState .R (finalScore "Yes" (some 1)) 1) .I = 0 := by
  refine ⟨by norm_num [fwOne], ?_⟩
  exact claim_C4_normalization_and_degenerate_category.2 respYesR fwOne
    (applyCredit initState .R (finalScore "Yes" (some 1)) 1) .I
    (by norm_num [fwOne]) rfl rfl

/-- **C9** (confirmed): the scoring method neither reads nor writes any
instance state: the returned instance is the receiver unchanged, the
score result does not depend on the receiver, and a second call on the
returned instance yields the identical result. -/
theorem claim_C9_aggregator_is_pure (svc svc2 : CareerAssessmentService)
    (rs : List AssessmentResponse) (fw : List FrameworkRow) :
    (svc.calcRiasecScores rs fw).2 = svc
    ∧ (svc.calcRiasecScores rs fw).1 = (svc2.calcRiasecScores rs fw).1
    ∧ ((svc.calcRiasecScores rs fw).2.calcRiasecScores rs fw).1
        = (svc.calcRiasecScores rs fw).1
    ∧ (svc.calcRiasecScores rs fw).1 = calculate_riasec_scores rs fw :=
  ⟨rfl, rfl, rfl, rfl⟩

/-! ## Claims about the Trend Predictor -/

/-- **C10** (confirmed): with an empty prediction list, the analysis
returns empty classification lists, average `0` and no top subject,
without raising. -/
theorem claim_C10_empty_predictions_analysis :
    analyze_student_strengths [] = ⟨[], [], 0, none, []⟩ :=
  rfl

/-! ## Lemmas about the predictor -/

theorem mem_foldl_distinct [DecidableEq α] (l : List α) :
    ∀ (acc : List α) (x : α),
      (x ∈ l.foldl (fun a y => if y ∈ a then a else a ++ [y]) acc) ↔ x ∈ acc ∨ x ∈ l := by
  induction l with
  | nil => intro acc x; simp
  | cons y l ih =>
    intro acc x
    simp only [List.foldl_cons]
    by_cases hy : y ∈ acc
    · rw [if_pos hy, ih]
      simp only [List.mem_cons]
      constructor
      · rintro (h | h)
        · exact Or.inl h
        · exact Or.inr (Or.inr h)
      · rintro (h | h | h)
        · exact Or.inl h
        · exact Or.inl (h ▸ hy)
        · exact Or.inr h
    · rw [if_neg hy, ih]
      simp [or_assoc]

theorem mem_distinctVals [DecidableEq α] (l : List α) (x : α) :
    x ∈ distinctVals l ↔ x ∈ l := by
  unfold distinctVals
  rw [mem_foldl_distinct]
  simp

theorem mem_uniqueSubjects (grades_df : List GradeRow) (s : String) :
    s ∈ uniqueSubjects grades_df ↔ ∃ r ∈ grades_df, r.subject = s := by
  unfold uniqueSubjects
  rw [mem_distinctVals]
  simp [eq_comm]

theorem two_le_length_of_mem_ne {l : List α} {a b : α}
    (ha : a ∈ l) (hb : b ∈ l) (hab : a ≠ b) : 2 ≤ l.length := by
  cases l with
  | nil => cases ha
  | cons x xs =>
    cases xs with
    | nil =>
      simp only [List.mem_singleton] at ha hb
      exact absurd (ha.trans hb.symm) hab
    | cons y ys => simp

theorem train_model_none_iff (grades_df : List GradeRow) (s : String) :
    train_model_for_subject grades_df s = none ↔ (subjectRows grades_df s).length < 2 := by
  unfold train_model_for_subject
  by_cases h : (subjectRows grades_df s).length < 2
  · simp [h]
  · simp [h]

theorem buildPrediction_subject {sid : String} {grades_df : List GradeRow}
    {s : String} {p : Prediction} (h : buildPrediction sid grades_df s = some p) :
    p.subject = s := by
  unfold buildPrediction at h
  cases htr : train_model_for_subject grades_df s with
  | none => rw [htr] at h; exact absurd h (by simp)
  | some mm =>
    rw [htr] at h
    cases mm with
    | mk model metrics =>
      cases h
      rfl

theorem stdDev_nonneg (l : List ℚ) : 0 ≤ stdDev l :=
  Real.sqrt_nonneg _

theorem buildPrediction_spec (sid : String) {grades_df : List GradeRow} {s : String}
    (h : 2 ≤ (subjectRows grades_df s).length) :
    ∃ q r2v maev : ℚ,
      buildPrediction sid grades_df s = some
        { student_id := sid, subject := s,
          predicted_score := npClip q 0 10,
          confidence_lower := max 0 ((npClip q 0 10 : ℝ)
            - stdDev ((subjectRows grades_df s).map (fun r => r.score))),
          confidence_upper := min 10 ((npClip q 0 10 : ℝ)
            + stdDev ((subjectRows grades_df s).map (fun r => r.score))),
          model_version := "linear_regression_v1",
          r2_score := r2v, mae := maev } := by
  cases htr : train_model_for_subject grades_df s with
  | none =>
    rw [train_model_none_iff] at htr
    omega
  | some mm =>
    cases mm with
    | mk model metrics =>
      refine ⟨model.predictAt 12, metrics.r2_score, metrics.mae, ?_⟩
      unfold buildPrediction
      rw [htr]

/-! ## Claims about the Trend Predictor, continued -/

/-- **C2** counterexample: the guard in `train_model_for_subject` counts
rows, not distinct grade levels.  A subject with two rows at the same
grade level has a single distinct `grade_level` value, yet a model is
trained (the library returns the minimum-norm fit, slope `0`) and a
prediction for it is emitted, contradicting the claim that such a
subject is omitted. -/
theorem claim_C2_counterexample :
    (distinctVals ((subjectRows dfDupLevel "Math").map (fun r => r.grade_level))).length = 1
    ∧ ((predict_grade_12 "s1" dfDupLevel).map (fun p => p.subject)) = ["Math"] := by
  constructor
  · simp [distinctVals, subjectRows, dfDupLevel]
  · simp [predict_grade_12, uniqueSubjects, distinctVals, dfDupLevel,
      buildPrediction, train_model_for_subject, subjectRows]

/-- **C2** as amended: a subject with fewer than 2 grade *rows* gets no
model and no prediction entry; the call is total, so no exception is
raised for sparse subjects. -/
theorem claim_C2_sparse_subject_omitted (sid : String) (grades_df : List GradeRow)
    (subject : String) (h : (subjectRows grades_df subject).length < 2) :
    train_model_for_subject grades_df subject = none
    ∧ ∀ p ∈ predict_grade_12 sid grades_df, p.subject ≠ subject := by
  refine ⟨(train_model_none_iff grades_df subject).mpr h, ?_⟩
  intro p hp heq
  rcases List.mem_filterMap.mp hp with ⟨s, _, hbuild⟩
  have hs : s = subject := (buildPrediction_subject hbuild).symm.trans heq
  subst hs
  unfold buildPrediction at hbuild
  rw [(train_model_none_iff grades_df s).mpr h] at hbuild
  exact absurd hbuild (by simp)

/-- Witness for the amended C2: a single-row subject yields no
prediction entry. -/
theorem claim_C2_witness :
    (subjectRows dfOneRow "Math").length < 2
    ∧ train_model_for_subject dfOneRow "Math" = none
    ∧ ∀ p ∈ predict_grade_12 "s1" dfOneRow, p.subject ≠ "Math" := by
  have h : (subjectRows dfOneRow "Math").length < 2 := by
    simp [subjectRows, dfOneRow]
  have hc := claim_C2_sparse_subject_omitted "s1" dfOneRow "Math" h
  exact ⟨h, hc.1, hc.2⟩

/-- **C7** (confirmed): fitting the two points (9, 7.0) and (10, 8.0)
yields slope exactly `1.0` and intercept exactly `−2.0`; the raw
grade-12 extrapolation is `10.0`, unchanged by the `[0,10]` clip, and
the emitted prediction carries exactly that score. -/
theorem claim_C7_two_point_fit :
    (train_model_for_subject dfTwoPoints "Math").map (fun mm => (mm.1.coef, mm.1.intercept))
        = some (1, -2)
    ∧ (fitOLS [9, 10] [7, 8]).predictAt 12 = 10
    ∧ npClip ((fitOLS [9, 10] [7, 8]).predictAt 12) 0 10
        = (fitOLS [9, 10] [7, 8]).predictAt 12
    ∧ ((predict_grade_12 "s1" dfTwoPoints).map (fun p => (p.subject, p.predicted_score)))
        = [("Math", 10)] := by
  have hfit : fitOLS [9, 10] [7, 8] = ⟨1, -2⟩ := by
    unfold fitOLS listMean
    norm_num
  refine ⟨?_, ?_, ?_, ?_⟩
  · simp [train_model_for_subject, subjectRows, dfTwoPoints]
    norm_num [fitOLS, listMean]
  · rw [hfit]; norm_num [LinearModel.predictAt]
  · rw [hfit]
    norm_num [LinearModel.predictAt, npClip]
  · simp [predict_grade_12, uniqueSubjects, distinctVals, dfTwoPoints,
      buildPrediction, train_model_for_subject, subjectRows]
    norm_num [fitOLS, listMean, LinearModel.predictAt, npClip]

/-- **C5** (confirmed): every subject with at least two distinct
(grade_level, score) pairs, all scores in [0,10], gets a prediction
whose clipped score lies in [0,10] and sits inside the confidence band
`[max(0, p − σ), min(10, p + σ)]`, with `σ` the sample standard
deviation of the subject's historical scores. -/
theorem claim_C5_prediction_bounds (sid : String) (grades_df : List GradeRow)
    (subject : String)
    (h2 : ∃ r1 ∈ subjectRows grades_df subject, ∃ r2 ∈ subjectRows grades_df subject,
            (r1.grade_level, r1.score) ≠ (r2.grade_level, r2.score))
    (hrange : ∀ r ∈ subjectRows grades_df subject, 0 ≤ r.score ∧ r.score ≤ 10) :
    ∃ p ∈ predict_grade_12 sid grades_df, p.subject = subject
      ∧ 0 ≤ p.predicted_score ∧ p.predicted_score ≤ 10
      ∧ p.confidence_lower ≤ (p.predicted_score : ℝ)
      ∧ (p.predicted_score : ℝ) ≤ p.confidence_upper
      ∧ p.confidence_lower = max 0 ((p.predicted_score : ℝ)
          - stdDev ((subjectRows grades_df subject).map (fun r => r.score)))
      ∧ p.confidence_upper = min 10 ((p.predicted_score : ℝ)
          + stdDev ((subjectRows grades_df subject).map (fun r => r.score))) := by
  rcases h2 with ⟨r1, hr1, r2, hr2, hne⟩
  have hne2 : r1 ≠ r2 := fun hcontra => hne (by rw [hcontra])
  have hlen : 2 ≤ (subjectRows grades_df subject).length :=
    two_le_length_of_mem_ne hr1 hr2 hne2
  have hmem : subject ∈ uniqueSubjects grades_df := by
    rw [mem_uniqueSubjects]
    refine ⟨r1, (List.mem_filter.mp hr1).1, ?_⟩
    exact of_decide_eq_true (List.mem_filter.mp hr1).2
  rcases buildPrediction_spec sid hlen with ⟨q, r2v, maev, hb⟩
  refine ⟨_, List.mem_filterMap.mpr ⟨subject, hmem, hb⟩, rfl, ?_, ?_, ?_, ?_, rfl, rfl⟩
  · exact le_min (by norm_num) (le_max_left 0 q)
  · exact min_le_left _ _
  · apply max_le
    · exact_mod_cast le_min (by norm_num : (0:ℚ) ≤ 10) (le_max_left 0 q)
    · exact sub_le_self _ (stdDev_nonneg _)
  · apply le_min
    · exact_mod_cast min_le_left (10 : ℚ) (max 0 q)
    · exact le_add_of_nonneg_right (stdDev_nonneg _)

/-- Witness for C5 at the two-point subject. -/
theorem claim_C5_witness :
    (∃ r1 ∈ subjectRows dfTwoPoints "Math", ∃ r2 ∈ subjectRows dfTwoPoints "Math",
        (r1.grade_level, r1.score) ≠ (r2.grade_level, r2.score))
    ∧ (∀ r ∈ subjectRows dfTwoPoints "Math", 0 ≤ r.score ∧ r.score ≤ 10)
    ∧ ∃ p ∈ predict_grade_12 "s1" dfTwoPoints, p.subject = "Math"
      ∧ 0 ≤ p.predicted_score ∧ p.predicted_score ≤ 10
      ∧ p.confidence_lower ≤ (p.predicted_score : ℝ)
      ∧ (p.predicted_score : ℝ) ≤ p.confidence_upper
      ∧ p.confidence_lower = max 0 ((p.predicted_score : ℝ)
          - stdDev ((subjectRows dfTwoPoints "Math").map (fun r => r.score)))
      ∧ p.confidence_upper = min 10 ((p.predicted_score : ℝ)
          + stdDev ((subjectRows dfTwoPoints "Math").map (fun r => r.score))) := by
  have hd : ∃ r1 ∈ subjectRows dfTwoPoints "Math", ∃ r2 ∈ subjectRows dfTwoPoints "Math",
      (r1.grade_level, r1.score) ≠ (r2.grade_level, r2.score) := by
    refine ⟨⟨"Math", 9, 7⟩, by simp [subjectRows, dfTwoPoints],
            ⟨"Math", 10, 8⟩, by simp [subjectRows, dfTwoPoints], ?_⟩
    simp only [Prod.mk.injEq, not_and]
    intro h
    norm_num at h
  have hr : ∀ r ∈ subjectRows dfTwoPoints "Math", 0 ≤ r.score ∧ r.score ≤ 10 := by
    intro r hrm
    simp [subjectRows, dfTwoPoints] at hrm
    rcases hrm with rfl | rfl <;> exact ⟨by norm_num, by norm_num⟩
  exact ⟨hd, hr, claim_C5_prediction_bounds "s1" dfTwoPoints "Math" hd hr⟩

/-! ## Lemmas about the stable descending sort and the profile ranking -/

theorem insertDescBy_perm (key : α → ℚ) (x : α) (l : List α) :
    (insertDescBy key x l).Perm (x :: l) := by
  induction l with
  | nil => exact List.Perm.refl _
  | cons y ys ih =>
    unfold insertDescBy
    by_cases h : key y < key x
    · rw [if_pos h]
    · rw [if_neg h]
      exact (List.Perm.cons y ih).trans (List.Perm.swap x y ys)

theorem foldl_insertDescBy_perm (key : α → ℚ) :
    ∀ (l acc : List α),
      (l.foldl (fun a x => insertDescBy key x a) acc).Perm (acc ++ l) := by
  intro l
  induction l with
  | nil => intro acc; simp
  | cons x l ih =>
    intro acc
    simp only [List.foldl_cons]
    refine (ih (insertDescBy key x acc)).trans ?_
    refine (List.Perm.append_right l (insertDescBy_perm key x acc)).trans ?_
    exact List.perm_middle.symm.trans (List.Perm.refl _) |>.symm.symm

theorem sortDescBy_perm (key : α → ℚ) (l : List α) :
    (sortDescBy key l).Perm l := by
  unfold sortDescBy
  simpa using foldl_insertDescBy_perm key l []

theorem insertDescBy_pairwise (key : α → ℚ) (pos : α → Nat) (x : α) (l : List α)
    (hl : l.Pairwise (keyLt key pos)) (hpos : ∀ y ∈ l, pos y < pos x) :
    (insertDescBy key x l).Pairwise (keyLt key pos) := by
  induction l with
  | nil => simp [insertDescBy]
  | cons y ys ih =>
    rcases List.pairwise_cons.mp hl with ⟨hy, hys⟩
    unfold insertDescBy
    by_cases h : key y < key x
    · rw [if_pos h]
      refine List.pairwise_cons.mpr ⟨?_, hl⟩
      intro z hz
      rcases List.mem_cons.mp hz with rfl | hz2
      · exact Or.inl h
      · rcases hy z hz2 with hlt | ⟨heq, _⟩
        · exact Or.inl (lt_trans hlt h)
        · exact Or.inl (heq ▸ h)
    · rw [if_neg h]
      refine List.pairwise_cons.mpr
        ⟨?_, ih hys (fun z hz => hpos z (List.mem_cons_of_mem y hz))⟩
      intro z hz
      have hz2 : z = x ∨ z ∈ ys := by
        simpa using (insertDescBy_perm key x ys).mem_iff.mp hz
      rcases hz2 with rfl | hz3
      · rcases lt_or_eq_of_le (not_lt.mp h) with hlt | heq
        · exact Or.inl hlt
        · exact Or.inr ⟨heq.symm, hpos y (List.mem_cons_self y ys)⟩
      · exact hy z hz3

theorem foldl_insertDescBy_pairwise (key : α → ℚ) (pos : α → Nat) :
    ∀ (l acc : List α), acc.Pairwise (keyLt key pos) →
      (∀ y ∈ acc, ∀ x ∈ l, pos y < pos x) →
      l.Pairwise (fun a b => pos a < pos b) →
      (l.foldl (fun a x => insertDescBy key x a) acc).Pairwise (keyLt key pos) := by
  intro l
  induction l with
  | nil => intro acc hacc _ _; exact hacc
  | cons x l ih =>
    intro acc hacc hcross hl
    rcases List.pairwise_cons.mp hl with ⟨hx, hl2⟩
    simp only [List.foldl_cons]
    apply ih
    · exact insertDescBy_pairwise key pos x acc hacc
        (fun y hy => hcross y hy x (List.mem_cons_self x l))
    · intro y hy z hz
      have hy2 : y = x ∨ y ∈ acc := by
        simpa using (insertDescBy_perm key x acc).mem_iff.mp hy
      rcases hy2 with rfl | hy3
      · exact hx z hz
      · exact hcross y hy3 z (List.mem_cons_of_mem x hz)
    · exact hl2

theorem rankCategories_perm (scores : Riasec → ℚ) :
    (rankCategories scores).Perm (riasecItems scores) :=
  sortDescBy_perm Prod.snd (riasecItems scores)

theorem riasecItems_pos_increasing (scores : Riasec → ℚ) :
    (riasecItems scores).Pairwise (fun a b : Riasec × ℚ => a.1.idx < b.1.idx) := by
  unfold riasecItems
  refine List.pairwise_map.mpr ?_
  have : Riasec.all.Pairwise (fun a b => a.idx < b.idx) := by decide
  exact this

theorem rankCategories_pairwise (scores : Riasec → ℚ) :
    (rankCategories scores).Pairwise profileOrder := by
  unfold rankCategories sortDescBy
  exact foldl_insertDescBy_pairwise Prod.snd (fun p => p.1.idx)
    (riasecItems scores) [] List.Pairwise.nil (by simp)
    (riasecItems_pos_increasing scores)

theorem profileOrder_asymm {p q : Riasec × ℚ}
    (h1 : profileOrder p q) (h2 : profileOrder q p) : False := by
  rcases h1 with h1 | ⟨he1, hp1⟩ <;> rcases h2 with h2 | ⟨he2, hp2⟩
  · exact absurd h2 (not_lt.mpr (le_of_lt h1))
  · exact absurd (he2 ▸ h1) (lt_irrefl _)
  · exact absurd (he1 ▸ h2) (lt_irrefl _)
  · omega

theorem rankCategories_unique (scores : Riasec → ℚ) (l : List (Riasec × ℚ))
    (hperm : l.Perm (riasecItems scores)) (hl : l.Pairwise profileOrder) :
    l = rankCategories scores := by
  have h1 : l.Perm (rankCategories scores) :=
    hperm.trans (rankCategories_perm scores).symm
  haveI : IsAntisymm (Riasec × ℚ) profileOrderRefl := by
    constructor
    intro a b hab hba
    rcases hab with h | h
    · rcases hba with h2 | h2
      · exact (profileOrder_asymm h h2).elim
      · exact h2.symm
    · exact h
  have hs1 : l.Sorted profileOrderRefl := hl.imp Or.inl
  have hs2 : (rankCategories scores).Sorted profileOrderRefl :=
    (rankCategories_pairwise scores).imp Or.inl
  exact List.eq_of_perm_of_sorted h1 hs1 hs2

/-- **C6** (confirmed): the ranking underlying the 3-letter profile is
the unique permutation of the six score items that is sorted by score
descending with ties broken by the enumeration order `R,I,A,S,E,C`
(Python's stable `sorted` with `reverse=True` preserves dict insertion
order among equal scores); the profile is the concatenation of its
first three codes.  Uniqueness makes the ranking deterministic: any two
runs on the same scores produce this same list and hence the same
profile string. -/
theorem claim_C6_profile_tie_break (scores : Riasec → ℚ) :
    (rankCategories scores).Perm (riasecItems scores)
    ∧ (rankCategories scores).Pairwise profileOrder
    ∧ (∀ l : List (Riasec × ℚ), l.Perm (riasecItems scores) →
        l.Pairwise profileOrder → l = rankCategories scores)
    ∧ riasecProfile scores
        = String.join (((rankCategories scores).take 3).map (fun p => p.1.codeStr)) :=
  ⟨rankCategories_perm scores, rankCategories_pairwise scores,
    rankCategories_unique scores, rfl⟩

/-- Witness for C6: with all six scores tied at 50, the ranking is the
enumeration order itself and the profile is `"RIA"`. -/
theorem claim_C6_witness :
    riasecItems allFifty = rankCategories allFifty
    ∧ riasecProfile allFifty = "RIA" := by
  have hpw : (riasecItems allFifty).Pairwise profileOrder := by
    simp [riasecItems, Riasec.all, allFifty, profileOrder, keyLt, Riasec.idx]
  have h := (claim_C6_profile_tie_break allFifty).2.2.1 (riasecItems allFifty)
    (List.Perm.refl _) hpw
  refine ⟨h, ?_⟩
  have h4 := (claim_C6_profile_tie_break allFifty).2.2.2
  rw [h4, ← h]
  rfl

/-! ## Claims about the strength/weakness analysis -/

/-- **C8** counterexample: the `strong` cutoff is not a fixed policy
constant — it is the `threshold` parameter of
`analyze_student_strengths` (default `8.0`).  Calling with
`threshold = 9` leaves a subject with predicted score `8.5` out of
`strong_subjects`, refuting "strong iff predicted ≥ 8.0" as a statement
about every call. -/
theorem claim_C8_counterexample :
    8 ≤ predStrong.predicted_score
    ∧ "Math" ∉ (analyze_student_strengths [predStrong] 9).strong_subjects := by
  constructor
  · norm_num [predStrong]
  · norm_num [analyze_student_strengths, predStrong, sortDescBy, insertDescBy,
      List.filter, listMean]

/-- **C8** as amended: for every non-empty prediction list and
per-call threshold (defaulting to `8.0`), a subject is in
`strong_subjects` iff some prediction for it has score ≥ threshold, in
`weak_subjects` iff some prediction has score < 7.0, and in
`improvement_areas` iff some prediction has R² (defaulting to 1.0 when
the key is absent) < 0.7 or score < 7.0; the reported average is the
arithmetic mean of all predicted scores.  The `7.0` and `0.7` cutoffs
are hard-coded; only the `strong` cutoff is configurable per call. -/
theorem claim_C8_strength_classification (predictions : List PredInput)
    (threshold : ℚ) (h : predictions ≠ []) :
    (∀ s, s ∈ (analyze_student_strengths predictions threshold).strong_subjects
        ↔ ∃ p ∈ predictions, p.subject = s ∧ threshold ≤ p.predicted_score)
    ∧ (∀ s, s ∈ (analyze_student_strengths predictions threshold).weak_subjects
        ↔ ∃ p ∈ predictions, p.subject = s ∧ p.predicted_score < 7)
    ∧ (∀ s, s ∈ (analyze_student_strengths predictions threshold).improvement_areas
        ↔ ∃ p ∈ predictions, p.subject = s
            ∧ (p.r2_score.getD 1 < 7/10 ∨ p.predicted_score < 7))
    ∧ (analyze_student_strengths predictions threshold).average_predicted_score
        = (predictions.map (fun p => p.predicted_score)).sum / predictions.length := by
  have hne : ¬ predictions.isEmpty := by
    cases predictions with
    | nil => exact absurd rfl h
    | cons p ps => simp
  unfold analyze_student_strengths
  rw [if_neg hne]
  have hperm := sortDescBy_perm (fun p : PredInput => p.predicted_score) predictions
  refine ⟨?_, ?_, ?_, by simp [listMean, List.length_map]⟩
  · intro s
    simp only [List.mem_map, List.mem_filter]
    constructor
    · rintro ⟨p, ⟨hpmem, hcond⟩, rfl⟩
      exact ⟨p, hperm.mem_iff.mp hpmem, rfl, of_decide_eq_true hcond⟩
    · rintro ⟨p, hpmem, hs, hcond⟩
      exact ⟨p, ⟨hperm.mem_iff.mpr hpmem, decide_eq_true hcond⟩, hs⟩
  · intro s
    simp only [List.mem_map, List.mem_filter]
    constructor
    · rintro ⟨p, ⟨hpmem, hcond⟩, rfl⟩
      exact ⟨p, hperm.mem_iff.mp hpmem, rfl, of_decide_eq_true hcond⟩
    · rintro ⟨p, hpmem, hs, hcond⟩
      exact ⟨p, ⟨hperm.mem_iff.mpr hpmem, decide_eq_true hcond⟩, hs⟩
  · intro s
    simp only [List.mem_map, List.mem_filter]
    constructor
    · rintro ⟨p, ⟨hpmem, hcond⟩, rfl⟩
      exact ⟨p, hpmem, rfl, of_decide_eq_true hcond⟩
    · rintro ⟨p, hpmem, hs, hcond⟩
      exact ⟨p, ⟨hpmem, decide_eq_true hcond⟩, hs⟩

/-- Witness for the amended C8 at the default threshold. -/
theorem claim_C8_witness :
    ([predStrong] ≠ ([] : List PredInput))
    ∧ ("Math" ∈ (analyze_student_strengths [predStrong] 8).strong_subjects
        ↔ ∃ p ∈ [predStrong], p.subject = "Math" ∧ 8 ≤ p.predicted_score) := by
  refine ⟨by simp, ?_⟩
  exact (claim_C8_strength_classification [predStrong] 8 (by simp)).1 "Math"

end CareerApp
